import Mathlib

/-!
Shallow embedding of the SMB handshake server (smbserver.py): the wire codec,
the string-decoding helpers with their alignment quirks, the per-command
payload codecs and the four handshake steps.

Machine integers are modelled as Nat (with explicit mod 2^w where the source
truncates); byte strings are lists of Nat, one element per byte; fallible
code returns Except String, the string mirroring the role of the exception
raised by the source.  Parts inherited from the external struct library
(message layout, reset defaults, constants) are modelled from the spec and
marked as such.
-/

abbrev Bytes := List Nat

instance {ε α : Type} [DecidableEq ε] [DecidableEq α] : DecidableEq (Except ε α) := fun x y =>
  match x, y with
  | Except.error a, Except.error b =>
    if h : a = b then Decidable.isTrue (by rw [h]) else Decidable.isFalse (by simp [h])
  | Except.ok a, Except.ok b =>
    if h : a = b then Decidable.isTrue (by rw [h]) else Decidable.isFalse (by simp [h])
  | Except.error a, Except.ok b => Decidable.isFalse (by simp)
  | Except.ok a, Except.error b => Decidable.isFalse (by simp)

def le16 (x : Nat) : Bytes := [x % 256, x / 256 % 256]

def le32 (x : Nat) : Bytes :=
  [x % 256, x / 256 % 256, x / 65536 % 256, x / 16777216 % 256]

def le64 (x : Nat) : Bytes := le32 (x % 4294967296) ++ le32 (x / 4294967296)

def be32 (x : Nat) : Bytes :=
  [x / 16777216 % 256, x / 65536 % 256, x / 256 % 256, x % 256]

/-- little-endian 16-bit read at index i (unpack of an H field). -/
def rd16le (b : Bytes) (i : Nat) : Nat := b.getD i 0 + 256 * b.getD (i + 1) 0

/-- little-endian 32-bit read at index i (unpack of an I field). -/
def rd32le (b : Bytes) (i : Nat) : Nat :=
  b.getD i 0 + 256 * b.getD (i + 1) 0 + 65536 * b.getD (i + 2) 0 +
    16777216 * b.getD (i + 3) 0

/-- big-endian 16-bit read; the ANDX extension header is unpacked with a
big-endian format string in the source. -/
def be16rd (b : Bytes) (i : Nat) : Nat := 256 * b.getD i 0 + b.getD (i + 1) 0

/-- big-endian 32-bit read (the frame length field). -/
def be32rd (b : Bytes) (i : Nat) : Nat :=
  16777216 * b.getD i 0 + 65536 * b.getD (i + 1) 0 + 256 * b.getD (i + 2) 0 +
    b.getD (i + 3) 0

/-- pack of a signed little-endian 16-bit value (two-complement). -/
def le16i (z : Int) : Bytes := le16 (z % 65536).toNat

/-- byte values of an ASCII string (the encode direction of str.encode). -/
def asciiBytes (s : String) : Bytes := s.toList.map Char.toNat

/-- decode of a byte string in a single-byte charset. -/
def asciiDecode (b : Bytes) : String := String.mk (b.map Char.ofNat)

/-- decode of a byte string as little-endian double-byte code units.
Surrogate-pair recombination is not modelled; every string this server
decodes in the claims under study stays in the basic plane. -/
def utf16leDecode : Bytes → List Char
  | b0 :: b1 :: rest => Char.ofNat (b0 + 256 * b1) :: utf16leDecode rest
  | [b0] => [Char.ofNat b0]
  | [] => []

/-- encode of a string as little-endian double-byte code units (basic-plane
characters; every string this server emits here is ASCII or comes from an
already-decoded double-byte field). -/
def utf16leEncode (s : String) : Bytes :=
  (s.toList.map (fun c => [c.toNat % 256, c.toNat / 256 % 256])).flatten

/-- Python bytes.rstrip of zero bytes. -/
def rstripZeros (b : Bytes) : Bytes := (b.reverse.dropWhile (fun x => x == 0)).reverse

/-- Python bytes.index(pat, s): the least position o with s ≤ o at which pat
occurs inside hay; none models the ValueError raised when absent. -/
def bytesIndex (hay pat : Bytes) (s : Nat) : Option Nat :=
  (List.range (hay.length + 1)).find? (fun i => decide (s ≤ i) && pat.isPrefixOf (hay.drop i))

/-- one source string-scan loop: repeatedly look for the terminator from s and,
when the hit o has (base + o) odd, resume the search one byte later; stop at the
first hit with (base + o) even.  The session-setup loop tests the parity of the
raw-buffer index itself (base = 0); the tree-connect loop tests the parity of
the data-block index plus header size plus parameters length.  The fuel
argument only bounds the iteration count: each round strictly increases s and
the search fails beyond the end of hay, so hay.length + 2 rounds always
suffice to reproduce the unbounded source loop. -/
def alignedScan (hay pat : Bytes) (base : Nat) : Nat → Nat → Option Nat
  | 0, _ => Option.none
  | fuel + 1, s =>
    match bytesIndex hay pat s with
    | Option.none => Option.none
    | Option.some o =>
      if (base + o) % 2 = 1 then alignedScan hay pat base fuel (o + 1) else Option.some o

def alignedIndexFrom (hay pat : Bytes) (base s : Nat) : Option Nat :=
  alignedScan hay pat base (hay.length + 2) s

/-- command byte of NEGOTIATE. -/
def SMB_COM_NEGOTIATE : Nat := 0x72

/-- command byte of SESSION_SETUP_ANDX. -/
def SMB_COM_SESSION_SETUP_ANDX : Nat := 0x73

/-- command byte of TREE_CONNECT_ANDX. -/
def SMB_COM_TREE_CONNECT_ANDX : Nat := 0x75

/-- command byte of ECHO. -/
def SMB_COM_ECHO : Nat := 0x2B

/-- reply direction bit of the one-byte flags field. -/
def SMB_FLAGS_REPLY : Nat := 0x80

/-- extended-security bit of the two-byte flags2 field. -/
def SMB_FLAGS2_EXTENDED_SECURITY : Nat := 0x0800

/-- unicode-charset bit of the two-byte flags2 field. -/
def SMB_FLAGS2_UNICODE : Nat := 0x8000

/-- capability bit: unicode support. -/
def CAP_UNICODE : Nat := 0x0004

/-- capability bit: large-file support. -/
def CAP_LARGE_FILES : Nat := 0x0008

/-- capability bit: 32-bit status support. -/
def CAP_STATUS32 : Nat := 0x0040

/-- optional-support bitmask value: search support on the connected tree. -/
def SMB_TREE_CONNECTX_SUPPORT_SEARCH : Nat := 0x0010

/-- Modelled from the spec: the wire codec works on a fixed 32-byte header
(spec section 2 and 6); this constant is the header size the source adds into
every offset computation. -/
def HEADER_STRUCT_SIZE : Nat := 32

/-- size of the 4-byte ANDX extension header. -/
def DEFAULT_ANDX_PARAM_SIZE : Nat := 4

/-- terminal ANDX extension header: command 0xFF, reserved 0, offset 0. -/
def DEFAULT_ANDX_PARAM_HEADER : Bytes := [0xFF, 0, 0, 0]

/-- Modelled from the spec: the mutable message object of the external struct
library, restricted to the attributes this server reads or writes (spec
section 3 and 6).  raw_data holds the whole received buffer. -/
structure SMBMessage where
  command : Nat
  status : Nat
  flags : Nat
  flags2 : Nat
  pid : Nat
  security : Nat
  tid : Nat
  uid : Nat
  mid : Nat
  parameters_data : Bytes
  data : Bytes
  raw_data : Bytes
deriving DecidableEq

/-- Modelled from the spec: a freshly constructed message has every numeric
field zero and empty blocks (responses are constructed fresh per reply,
spec section 3). -/
def resetMessage : SMBMessage :=
  { command := 0, status := 0, flags := 0, flags2 := 0, pid := 0, security := 0,
    tid := 0, uid := 0, mid := 0, parameters_data := [], data := [], raw_data := [] }

/-- init_reply of the source: set the command, turn the reply flag on, clear
the extended-security flags2 bit, and copy tid, uid, mid from the payload
attributes (0 stands for a payload carrying no such attribute).  Clearing a
single-bit mask with and-not equals subtracting the extracted bit. -/
def init_reply (tid uid mid command : Nat) (m : SMBMessage) : SMBMessage :=
  { m with command := command,
           flags := m.flags ||| SMB_FLAGS_REPLY,
           flags2 := m.flags2 - (m.flags2 &&& SMB_FLAGS2_EXTENDED_SECURITY),
           tid := tid, uid := uid, mid := mid }

/-- fields the session-setup request decode stores on the payload. -/
structure ComSessionSetupAndxRequest where
  max_buffer_size : Nat
  max_mpx_count : Nat
  vc_number : Nat
  session_key : Nat
  capabilities : Nat
  password : String
  username : String
  domain : String
  native_os : String
  native_lan_man : String
deriving DecidableEq

/-- one round of the source string loop: find the next aligned terminator in
the raw buffer starting at off, decode the slice up to it in the negotiated
charset, and return it with the offset just past the terminator.  none from
the scan models the ValueError of bytes.index. -/
def readAlignedString (raw term : Bytes) (uni : Bool) (off : Nat) :
    Except String (String × Nat) :=
  match alignedIndexFrom raw term 0 off with
  | Option.none => Except.error "ValueError: subsection not found"
  | Option.some o =>
    let slice := (raw.drop off).take (o - off)
    Except.ok (if uni then String.mk (utf16leDecode slice) else asciiDecode slice,
               o + term.length)

/-- the four successive string fields of the session-setup request, read from
the raw message buffer with the aligned-terminator scan. -/
def sessionSetupStrings (m : SMBMessage) (uni : Bool) (off0 : Nat)
    (mbs mpx vc skey caps : Nat) (pw : String) :
    Except String ComSessionSetupAndxRequest := do
  let term : Bytes := if uni then [0, 0] else [0]
  let (username, off1) ← readAlignedString m.raw_data term uni off0
  let (domain, off2) ← readAlignedString m.raw_data term uni off1
  let (nativeos, off3) ← readAlignedString m.raw_data term uni off2
  let (nativelanman, _) ← readAlignedString m.raw_data term uni off3
  Except.ok { max_buffer_size := mbs, max_mpx_count := mpx, vc_number := vc,
              session_key := skey, capabilities := caps, password := pw,
              username := username, domain := domain,
              native_os := nativeos, native_lan_man := nativelanman }

/-- body of the session-setup request decode after the ANDX check: unpack the
fixed fields (exactly 22 bytes follow the 4 ANDX bytes), read the two password
blobs, compute the raw string offset (header size + parameters length + 2 +
both blob lengths, exactly as the source writes it), consume the unicode pad
byte when that offset is odd, then read the four strings. -/
def sessionSetupDecodeRest (m : SMBMessage) : Except String ComSessionSetupAndxRequest :=
  let params := m.parameters_data.drop DEFAULT_ANDX_PARAM_SIZE
  if params.length ≠ 22 then Except.error "struct.error: unpack requires a buffer of 22 bytes"
  else
    let length1 := rd16le params 10
    let length2 := rd16le params 12
    let is_unicode := m.flags2 &&& SMB_FLAGS2_UNICODE != 0
    let cip := asciiDecode (rstripZeros (m.data.take length1))
    let csp := asciiDecode (rstripZeros ((m.data.drop length1).take length2))
    let pw := if cip = "" then csp else cip
    let raw_offset := HEADER_STRUCT_SIZE + m.parameters_data.length + 2 + length1 + length2
    let rest := fun off => sessionSetupStrings m is_unicode off (rd16le params 0)
      (rd16le params 2) (rd16le params 4) (rd32le params 6) (rd32le params 18) pw
    if raw_offset % 2 == 1 && is_unicode then
      if raw_offset < m.raw_data.length then
        if m.raw_data.getD raw_offset 0 ≠ 0 then Except.error "Was expecting null byte!"
        else rest (raw_offset + 1)
      else Except.error "IndexError: index out of range"
    else rest raw_offset

/-- session-setup request decode: the 4-byte ANDX extension header must be the
terminal form (command 0xFF, offset 0, read with a big-endian format), any
other combination is a fatal error; then the rest of the payload is decoded. -/
def ComSessionSetupAndxRequest.decode (m : SMBMessage) :
    Except String ComSessionSetupAndxRequest :=
  if m.parameters_data.length < DEFAULT_ANDX_PARAM_SIZE then
    Except.error "struct.error: unpack requires a buffer of 4 bytes"
  else if m.parameters_data.getD 0 0 = 0xFF ∧ be16rd m.parameters_data 2 = 0 then
    sessionSetupDecodeRest m
  else Except.error "We do not support non-terminal ANDX parameter blocks yet"

/-- fields the tree-connect request decode stores on the payload. -/
structure ComTreeConnectAndxRequest where
  password : String
  path : String
  service : String
deriving DecidableEq

/-- path and service fields of the tree-connect request: the path terminator is
the double zero whose data-block index o satisfies (o + header size +
parameters length) even — the source parity check does not count the
word-count byte or the two data-length bytes sitting between the parameters
block and the data block — and the service string runs from just past the
terminator to the next single zero byte. -/
def treeConnectPath (m : SMBMessage) (password : String) (off : Nat) :
    Except String ComTreeConnectAndxRequest :=
  match alignedIndexFrom m.data [0, 0] (HEADER_STRUCT_SIZE + m.parameters_data.length) off with
  | Option.none => Except.error "ValueError: subsection not found"
  | Option.some sno =>
    match bytesIndex m.data [0] (sno + 2) with
    | Option.none => Except.error "ValueError: subsection not found"
    | Option.some so =>
      Except.ok { password := password,
                  path := String.mk (utf16leDecode ((m.data.drop off).take (sno - off))),
                  service := asciiDecode ((m.data.drop (sno + 2)).take (so - (sno + 2))) }

/-- body of the tree-connect request decode after the ANDX check: unpack flags
and password length (4 more parameter bytes), read the password blob, consume
a pad byte when header size + parameters length + password length is odd
(it must be zero), then read path and service. -/
def treeConnectDecodeRest (m : SMBMessage) : Except String ComTreeConnectAndxRequest :=
  if m.parameters_data.length < DEFAULT_ANDX_PARAM_SIZE + 4 then
    Except.error "struct.error: unpack requires a buffer of 4 bytes"
  else
    let password_len := rd16le m.parameters_data 6
    let password := asciiDecode (rstripZeros (m.data.take password_len))
    if (HEADER_STRUCT_SIZE + m.parameters_data.length + password_len) % 2 = 1 then
      if password_len < m.data.length then
        if m.data.getD password_len 0 ≠ 0 then Except.error "Was expecting null byte padding!"
        else treeConnectPath m password (password_len + 1)
      else Except.error "IndexError: index out of range"
    else treeConnectPath m password password_len

/-- tree-connect request decode: same terminal ANDX extension header check as
the session-setup decode, then the rest of the payload. -/
def ComTreeConnectAndxRequest.decode (m : SMBMessage) :
    Except String ComTreeConnectAndxRequest :=
  if m.parameters_data.length < DEFAULT_ANDX_PARAM_SIZE then
    Except.error "struct.error: unpack requires a buffer of 4 bytes"
  else if m.parameters_data.getD 0 0 = 0xFF ∧ be16rd m.parameters_data 2 = 0 then
    treeConnectDecodeRest m
  else Except.error "We do not support non-terminal ANDX parameter blocks yet"

/-- fields of the echo request payload. -/
structure ComEchoRequest where
  echo_count : Nat
  echo_data : Bytes
deriving DecidableEq

/-- echo request decode: a 2-byte little-endian echo count from the parameters
block, and the data block verbatim. -/
def ComEchoRequest.decode (m : SMBMessage) : Except String ComEchoRequest :=
  if m.parameters_data.length < 2 then
    Except.error "struct.error: unpack requires a buffer of 2 bytes"
  else Except.ok { echo_count := rd16le m.parameters_data 0, echo_data := m.data }

/-- Python bytes.split on a zero byte: every occurrence splits, yielding one
more part than there are zero bytes. -/
def splitOnZero : Bytes → List Bytes
  | [] => [[]]
  | 0 :: rest => [] :: splitOnZero rest
  | b :: rest =>
    match splitOnZero rest with
    | h :: t => (b :: h) :: t
    | [] => [[b]]

/-- negotiate request decode on the data block: split on zero bytes, require
the popped final part be empty, strip each leading 0x02 format marker and
decode the dialect names. -/
def negotiateDecodeData (data : Bytes) : Except String (List String) :=
  let parts := splitOnZero data
  if parts.getLast? = Option.some [] then
    Except.ok (parts.dropLast.map (fun d => asciiDecode (d.dropWhile (fun x => x == 2))))
  else Except.error "Non-trailing null byte!"

/-- negotiate request decode (the dialects list is the only field stored). -/
def ComNegotiateRequest.decode (m : SMBMessage) : Except String (List String) :=
  negotiateDecodeData m.data

/-- the typed request payload attached to a decoded message, one variant per
command this server decodes itself.  nullPayload stands both for commands with
no decoder attached and for the externally decoded payloads (reply-flagged
messages and the read/write/transaction families): none of those carries any
attribute the handshake steps read, so downstream attribute access fails on
them exactly as it does on an absent payload. -/
inductive SMBPayload where
  | negotiateReq (dialects : List String)
  | sessionSetupReq (r : ComSessionSetupAndxRequest)
  | treeConnectReq (r : ComTreeConnectAndxRequest)
  | echoReq (r : ComEchoRequest)
  | nullPayload
deriving DecidableEq

/-- payload dispatch of the message decode: reply-flagged messages take the
external response decoders (modelled as nullPayload), otherwise the command
byte selects the request decoder; unknown commands leave the payload absent. -/
def decodePayload (m : SMBMessage) : Except String SMBPayload :=
  if m.flags &&& SMB_FLAGS_REPLY ≠ 0 then Except.ok SMBPayload.nullPayload
  else if m.command = SMB_COM_TREE_CONNECT_ANDX then
    (ComTreeConnectAndxRequest.decode m).map SMBPayload.treeConnectReq
  else if m.command = SMB_COM_ECHO then
    (ComEchoRequest.decode m).map SMBPayload.echoReq
  else if m.command = SMB_COM_SESSION_SETUP_ANDX then
    (ComSessionSetupAndxRequest.decode m).map SMBPayload.sessionSetupReq
  else if m.command = SMB_COM_NEGOTIATE then
    (ComNegotiateRequest.decode m).map SMBPayload.negotiateReq
  else Except.ok SMBPayload.nullPayload

/-- Modelled from the spec: message decode of the wire codec (spec section 4.1
and 6).  The 32-byte header carries the signature, command, status, flags,
flags2, the split process id, eight security bytes, two reserved bytes (the
spec field list omits these but its stated 32-byte total requires them), tree
id, user id and multiplex id; then a one-byte parameters word count, the
parameters block, a 2-byte little-endian data byte count and the data block.
Declared block lengths beyond the buffer are a decode error. -/
def decodeMessage (buf : Bytes) : Except String SMBMessage :=
  if buf.length < HEADER_STRUCT_SIZE + 1 then
    Except.error "Not enough data to decode SMB header"
  else if buf.take 4 ≠ [0xFF, 0x53, 0x4D, 0x42] then
    Except.error "Invalid 4-byte SMB protocol field"
  else
    let wc := buf.getD 32 0
    if buf.length < 33 + 2 * wc + 2 then
      Except.error "Not enough data to decode SMB parameters"
    else
      let dc := rd16le buf (33 + 2 * wc)
      if buf.length < 35 + 2 * wc + dc then
        Except.error "Not enough data to decode SMB data"
      else
        Except.ok { command := buf.getD 4 0,
                    status := rd32le buf 5,
                    flags := buf.getD 9 0,
                    flags2 := rd16le buf 10,
                    pid := rd16le buf 12 * 65536 + rd16le buf 26,
                    security := rd32le buf 14 + 4294967296 * rd32le buf 18,
                    tid := rd16le buf 24,
                    uid := rd16le buf 28,
                    mid := rd16le buf 30,
                    parameters_data := (buf.drop 33).take (2 * wc),
                    data := (buf.drop (35 + 2 * wc)).take dc,
                    raw_data := buf }

/-- read_message after the framing layer: decode the message and its payload. -/
def readMessage (buf : Bytes) : Except String (SMBMessage × SMBPayload) :=
  match decodeMessage buf with
  | Except.error e => Except.error e
  | Except.ok m =>
    match decodePayload m with
    | Except.error e => Except.error e
    | Except.ok p => Except.ok (m, p)

/-- negotiate response fields, exactly the keyword arguments the handler
builds (no pid, tid, uid or mid among them). -/
structure ComNegotiateResponse where
  dialect_index : Nat
  security_mode : Nat
  max_mpx_count : Nat
  max_number_vcs : Nat
  max_buffer_size : Nat
  max_raw_size : Nat
  session_key : Nat
  capabilities : Nat
  system_time : Nat
  server_time_zone : Int
  challenge_length : Nat
deriving DecidableEq

/-- negotiate response parameters block: pack of dialect index (H), security
mode (B), multiplex and VC limits (H H), buffer and raw sizes (I I), session
key (I), capabilities (I), system time (Q), time zone (signed h) and challenge
length (B). -/
def negotiateRespParams (r : ComNegotiateResponse) : Bytes :=
  le16 r.dialect_index ++ [r.security_mode % 256] ++ le16 r.max_mpx_count ++
    le16 r.max_number_vcs ++ le32 r.max_buffer_size ++ le32 r.max_raw_size ++
    le32 r.session_key ++ le32 r.capabilities ++ le64 r.system_time ++
    le16i r.server_time_zone ++ [r.challenge_length % 256]

/-- negotiate response initMessage: init_reply with the payload carrying no
tid, uid or mid attribute, so the getattr defaults of 0 apply. -/
def ComNegotiateResponse.initMessage (m : SMBMessage) : SMBMessage :=
  init_reply 0 0 0 SMB_COM_NEGOTIATE m

/-- negotiate response prepare: the generic prepare copies the absent pid
attribute (default 0), then the parameters block is packed and the data block
set empty. -/
def ComNegotiateResponse.prepare (r : ComNegotiateResponse) (m : SMBMessage) : SMBMessage :=
  { m with pid := 0, parameters_data := negotiateRespParams r, data := [] }

/-- message construction followed by encode-time prepare for the negotiate
response. -/
def ComNegotiateResponse.build (r : ComNegotiateResponse) : SMBMessage :=
  ComNegotiateResponse.prepare r (ComNegotiateResponse.initMessage resetMessage)

/-- session-setup response fields, exactly the keyword arguments the handler
builds. -/
structure ComSessionSetupAndxResponse where
  pid : Nat
  tid : Nat
  uid : Nat
  mid : Nat
  action : Nat
  domain : String
deriving DecidableEq

def ComSessionSetupAndxResponse.initMessage (r : ComSessionSetupAndxResponse)
    (m : SMBMessage) : SMBMessage :=
  init_reply r.tid r.uid r.mid SMB_COM_SESSION_SETUP_ANDX m

/-- session-setup response data block: empty security blob, a pad byte when
header size + parameters length + blob length is odd, then the three
double-byte zero-terminated strings (native OS, product, negotiated domain). -/
def sessionSetupRespDataOf (domain : String) : Bytes :=
  let params_len := DEFAULT_ANDX_PARAM_HEADER.length + 4
  let pad : Bytes := if (HEADER_STRUCT_SIZE + params_len) % 2 = 1 then [0] else []
  pad ++ utf16leEncode "Unix" ++ [0, 0] ++ utf16leEncode "DropboxFS" ++ [0, 0] ++
    utf16leEncode domain ++ [0, 0]

/-- session-setup response prepare: pid copied from the payload, parameters =
terminal ANDX header + action + zero blob length, data per
sessionSetupRespDataOf. -/
def ComSessionSetupAndxResponse.prepare (r : ComSessionSetupAndxResponse)
    (m : SMBMessage) : SMBMessage :=
  { m with pid := r.pid,
           parameters_data := DEFAULT_ANDX_PARAM_HEADER ++ le16 r.action ++ le16 0,
           data := sessionSetupRespDataOf r.domain }

def ComSessionSetupAndxResponse.build (r : ComSessionSetupAndxResponse) : SMBMessage :=
  ComSessionSetupAndxResponse.prepare r (ComSessionSetupAndxResponse.initMessage r resetMessage)

/-- tree-connect response fields, exactly the keyword arguments the handler
builds. -/
structure ComTreeConnectAndxResponse where
  pid : Nat
  tid : Nat
  uid : Nat
  mid : Nat
  optional_support : Nat
  service : String
  native_file_system : String
deriving DecidableEq

def ComTreeConnectAndxResponse.initMessage (r : ComTreeConnectAndxResponse)
    (m : SMBMessage) : SMBMessage :=
  init_reply r.tid r.uid r.mid SMB_COM_TREE_CONNECT_ANDX m

/-- the parameters bytes the tree-connect prepare computes: pack of ANDX
command 0xFF (B), reserved 0 (B), offset 0 (H) and the optional-support
bitmask (H).  The source stores these on the payload object itself, not on
the message, so they never reach the encoder. -/
def treeConnectPreparedParams (r : ComTreeConnectAndxResponse) : Bytes :=
  [0xFF, 0] ++ le16 0 ++ le16 r.optional_support

/-- the data bytes the tree-connect prepare computes (the fixed disk-share
marker); stored on the payload object, not on the message. -/
def treeConnectPreparedData : Bytes := [0x41, 0x3A, 0x00]

/-- tree-connect response prepare: only the generic pid copy touches the
message; the parameters and data assignments in the source go to self (the
payload), leaving the message blocks at their reset value. -/
def ComTreeConnectAndxResponse.prepare (r : ComTreeConnectAndxResponse)
    (m : SMBMessage) : SMBMessage :=
  { m with pid := r.pid }

def ComTreeConnectAndxResponse.build (r : ComTreeConnectAndxResponse) : SMBMessage :=
  ComTreeConnectAndxResponse.prepare r (ComTreeConnectAndxResponse.initMessage r resetMessage)

/-- echo response fields, exactly the keyword arguments the handler builds. -/
structure ComEchoResponse where
  pid : Nat
  tid : Nat
  uid : Nat
  mid : Nat
  sequence_number : Nat
  data : Bytes
deriving DecidableEq

def ComEchoResponse.initMessage (r : ComEchoResponse) (m : SMBMessage) : SMBMessage :=
  init_reply r.tid r.uid r.mid SMB_COM_ECHO m

/-- echo response prepare: pid copy, 2-byte sequence number parameters block,
data verbatim. -/
def ComEchoResponse.prepare (r : ComEchoResponse) (m : SMBMessage) : SMBMessage :=
  { m with pid := r.pid, parameters_data := le16 r.sequence_number, data := r.data }

def ComEchoResponse.build (r : ComEchoResponse) : SMBMessage :=
  ComEchoResponse.prepare r (ComEchoResponse.initMessage r resetMessage)

/-- the capability set the server advertises in its negotiate response. -/
def server_capabilities : Nat := CAP_UNICODE ||| CAP_LARGE_FILES ||| CAP_STATUS32

/-- first handshake step: require a NEGOTIATE command, then look the one
supported dialect up in the offered list (list.index: a miss raises, it is
never defaulted) and build the response from the fixed limits, the advertised
capabilities and the clock inputs ts (whole seconds) and utc_offset. -/
def handleNegotiateStep (ts : Nat) (utc_offset : Int) (req : SMBMessage)
    (p : SMBPayload) : Except String SMBMessage :=
  if req.command ≠ SMB_COM_NEGOTIATE then Except.error "Got unexpected request"
  else match p with
    | SMBPayload.negotiateReq dialects =>
      match dialects.indexOf? "NT LM 0.12" with
      | Option.none => Except.error "ValueError: NT LM 0.12 is not in list"
      | Option.some i =>
        Except.ok (ComNegotiateResponse.build
          { dialect_index := i, security_mode := 0, max_mpx_count := 65535,
            max_number_vcs := 65535, max_buffer_size := 65535, max_raw_size := 65535,
            session_key := 0, capabilities := server_capabilities,
            system_time := (ts + 11644473600) * 10000000,
            server_time_zone := utc_offset, challenge_length := 0 })
    | _ => Except.error "AttributeError: payload has no dialects"

/-- second handshake step: require a SESSION_SETUP_ANDX command, reject
capabilities outside the advertised set (the and-not of the source written as
subtracting the common bits), otherwise answer with action 1 and the client
domain, mirroring the request ids. -/
def handleSessionSetupStep (req : SMBMessage) (p : SMBPayload) :
    Except String SMBMessage :=
  if req.command ≠ SMB_COM_SESSION_SETUP_ANDX then Except.error "Got unexpected request"
  else match p with
    | SMBPayload.sessionSetupReq ss =>
      if ss.capabilities - (ss.capabilities &&& server_capabilities) ≠ 0 then
        Except.error "Client sent capabilities outside of the server posted caps"
      else
        Except.ok (ComSessionSetupAndxResponse.build
          { pid := req.pid, tid := req.tid, uid := req.uid, mid := req.mid,
            action := 1, domain := ss.domain })
    | _ => Except.error "AttributeError: payload has no capabilities"

/-- third handshake step: require a TREE_CONNECT_ANDX command, accept only the
wildcard or disk service names, otherwise answer with the search-support
bitmask and the fixed service and filesystem names, mirroring the request
ids. -/
def handleTreeConnectStep (req : SMBMessage) (p : SMBPayload) :
    Except String SMBMessage :=
  if req.command ≠ SMB_COM_TREE_CONNECT_ANDX then Except.error "Got unexpected request"
  else match p with
    | SMBPayload.treeConnectReq tc =>
      if tc.service ≠ "?????" ∧ tc.service ≠ "A:" then
        Except.error "We do not provide the requested service"
      else
        Except.ok (ComTreeConnectAndxResponse.build
          { pid := req.pid, tid := req.tid, uid := req.uid, mid := req.mid,
            optional_support := SMB_TREE_CONNECTX_SUPPORT_SEARCH,
            service := "A:", native_file_system := "FAT" })
    | _ => Except.error "AttributeError: payload has no service"

/-- fourth handshake step: the source performs no command check here, it reads
echo_count straight off the payload — only the echo request payload carries
that attribute, so the access fails on every other payload; an echo count
above 1 is a fatal error (the raise expression even names an undefined
variable, which only changes the exception class), otherwise the reply carries
sequence number 0 and the received bytes verbatim, mirroring the request
ids. -/
def handleEchoStep (req : SMBMessage) (p : SMBPayload) : Except String SMBMessage :=
  match p with
  | SMBPayload.echoReq e =>
    if e.echo_count > 1 then Except.error "Echo count is too high"
    else
      Except.ok (ComEchoResponse.build
        { pid := req.pid, tid := req.tid, uid := req.uid, mid := req.mid,
          sequence_number := 0, data := e.echo_data })
  | _ => Except.error "AttributeError: payload has no echo_count"

/-- Modelled from the spec: message encode of the wire codec, the inverse of
decodeMessage on the same 32-byte layout (spec section 4.1 and 6); pack
truncates each field to its width. -/
def encodeHeader (m : SMBMessage) : Bytes :=
  [0xFF, 0x53, 0x4D, 0x42] ++ [m.command % 256] ++ le32 m.status ++ [m.flags % 256] ++
    le16 m.flags2 ++ le16 (m.pid / 65536 % 65536) ++ le64 m.security ++ le16 0 ++
    le16 m.tid ++ le16 (m.pid % 65536) ++ le16 m.uid ++ le16 m.mid

/-- Modelled from the spec: full message encode — header, one-byte parameters
word count, parameters block, 2-byte data count, data block.  The payload
prepare has already been applied by the build functions. -/
def encodeMessage (m : SMBMessage) : Bytes :=
  encodeHeader m ++ [m.parameters_data.length / 2 % 256] ++ m.parameters_data ++
    le16 m.data.length ++ m.data

/-- send_message: the encoded body is sent behind a 4-byte big-endian length
prefix that covers only the body. -/
def sendMessage (m : SMBMessage) : Bytes :=
  be32 (encodeMessage m).length ++ encodeMessage m

/-- one sock.recv(k) call against a byte stream modelled as the list of
kernel-buffered segments: it returns at most k bytes taken from the first
segment, the rest of that segment stays buffered; an exhausted list returns
the empty string (peer closed). -/
def sockRecv (chunks : List Bytes) (k : Nat) : Bytes × List Bytes :=
  match chunks with
  | [] => ([], [])
  | c :: cs => (c.take k, if c.drop k = [] then cs else c.drop k :: cs)

/-- recv_all of the source: keep calling recv for the missing byte count,
concatenating, until the requested length is reached; an empty recv return
(peer closed early) is a fatal error.  Structural fuel replaces the source
while loop; every round consumes at least one byte, so fuel = requested
length always suffices and the fuel-exhausted branch is unreachable. -/
def recvAllFuel : Nat → List Bytes → Nat → Except String (Bytes × List Bytes)
  | _, chunks, 0 => Except.ok ([], chunks)
  | 0, _, _ + 1 => Except.error "EOF while expecting data!"
  | fuel + 1, chunks, len + 1 =>
    if (sockRecv chunks (len + 1)).1 = [] then Except.error "EOF while expecting data!"
    else
      match recvAllFuel fuel (sockRecv chunks (len + 1)).2
          (len + 1 - (sockRecv chunks (len + 1)).1.length) with
      | Except.ok (r, rest) => Except.ok ((sockRecv chunks (len + 1)).1 ++ r, rest)
      | Except.error e => Except.error e

def recv_all (chunks : List Bytes) (len : Nat) : Except String (Bytes × List Bytes) :=
  recvAllFuel len chunks len

/-- read_message up to the raw body: one recv(4) call for the length prefix
(unpack fails unless it returns exactly 4 bytes), then recv_all of exactly the
declared big-endian body length. -/
def read_message_raw (chunks : List Bytes) : Except String (Bytes × List Bytes) :=
  let dr := sockRecv chunks 4
  if dr.1.length = 4 then recv_all dr.2 (be32rd dr.1 0)
  else Except.error "struct.error: unpack requires a buffer of 4 bytes"

/-- a request header for concrete test messages: signature, command, zero
status, flags, flags2, split pid, zero security and reserved fields, tid,
uid, mid. -/
def mkHeader (cmd flags flags2 tid pid uid mid : Nat) : Bytes :=
  [0xFF, 0x53, 0x4D, 0x42, cmd] ++ le32 0 ++ [flags] ++ le16 flags2 ++
    le16 (pid / 65536) ++ le64 0 ++ le16 0 ++ le16 tid ++ le16 (pid % 65536) ++
    le16 uid ++ le16 mid

/-- negotiate data block offering LANMAN1.0 then NT LM 0.12, each behind the
0x02 format marker. -/
def negotiateTwoDialectBytes : Bytes :=
  [2] ++ asciiBytes "LANMAN1.0" ++ [0, 2] ++ asciiBytes "NT LM 0.12" ++ [0]

/-- negotiate data block offering only the supported dialect. -/
def ntDialectData : Bytes := [2] ++ asciiBytes "NT LM 0.12" ++ [0]

/-- a complete NEGOTIATE request frame body with tid 5, pid 3, uid 9, mid 7. -/
def c1NegotiateReqBytes : Bytes :=
  mkHeader SMB_COM_NEGOTIATE 0 0 5 3 9 7 ++ [0] ++ le16 ntDialectData.length ++ ntDialectData

/-- tree-connect data block: path region bytes 65 0 0 0 with a double-zero at
data offset 1 and another at data offset 2, then the service name and its
terminator. -/
def c5TreeData : Bytes := [65, 0, 0, 0, 65, 58, 0]

/-- a complete TREE_CONNECT_ANDX request frame body (terminal ANDX header,
zero flags and password length, the c5TreeData data block). -/
def c5TreeBytes : Bytes :=
  mkHeader SMB_COM_TREE_CONNECT_ANDX 0 0 1 2 3 4 ++ [4] ++
    ([0xFF, 0, 0, 0] ++ le16 0 ++ le16 0) ++ le16 c5TreeData.length ++ c5TreeData

/-- session-setup parameters: terminal ANDX header and 22 zero bytes (zero
buffer limits, session key, password lengths and capabilities). -/
def c5SessionParams : Bytes := [0xFF, 0, 0, 0] ++ List.replicate 22 0

/-- session-setup data block whose strings region contains a double zero at an
odd raw offset straddling two code units, followed by an aligned one. -/
def c5SessionData : Bytes := [65, 65, 0, 0, 0, 0, 0, 0, 0, 0, 0]

/-- a complete unicode SESSION_SETUP_ANDX request frame body. -/
def c5SessionBytes : Bytes :=
  mkHeader SMB_COM_SESSION_SETUP_ANDX 0 SMB_FLAGS2_UNICODE 1 2 3 4 ++ [13] ++
    c5SessionParams ++ le16 c5SessionData.length ++ c5SessionData

/-- path field of a decoded tree-connect payload, when present. -/
def treePathOf : SMBPayload → Option String
  | SMBPayload.treeConnectReq tc => Option.some tc.path
  | _ => Option.none

/-- username field of a decoded session-setup payload, when present. -/
def sessionUsernameOf : SMBPayload → Option String
  | SMBPayload.sessionSetupReq ss => Option.some ss.username
  | _ => Option.none

/-- an already-decoded echo request message with nonzero correlation ids. -/
def echoReqMsgEx : SMBMessage :=
  { resetMessage with command := SMB_COM_ECHO, pid := 70000, tid := 11, uid := 12, mid := 13 }

/-- an already-decoded session-setup request message with nonzero ids. -/
def sessionReqMsgEx : SMBMessage :=
  { resetMessage with command := SMB_COM_SESSION_SETUP_ANDX, pid := 21, tid := 22, uid := 23, mid := 24 }

/-- an already-decoded tree-connect request message with nonzero ids. -/
def treeReqMsgEx : SMBMessage :=
  { resetMessage with command := SMB_COM_TREE_CONNECT_ANDX, pid := 31, tid := 32, uid := 33, mid := 34 }

/-- an already-decoded negotiate request message with nonzero ids. -/
def negReqMsgEx : SMBMessage :=
  { resetMessage with command := SMB_COM_NEGOTIATE, pid := 41, tid := 42, uid := 43, mid := 44 }

/-- an echo request payload with count 1 and the bytes of the word ping. -/
def echoPayloadEx : SMBPayload :=
  SMBPayload.echoReq { echo_count := 1, echo_data := [112, 105, 110, 103] }

/-- a session-setup request payload whose capabilities lie inside the server
set. -/
def ssReqEx : ComSessionSetupAndxRequest :=
  { max_buffer_size := 0, max_mpx_count := 0, vc_number := 0, session_key := 0,
    capabilities := 4, password := "", username := "u", domain := "D",
    native_os := "", native_lan_man := "" }

/-- a tree-connect request payload asking for the wildcard service. -/
def tcReqEx : ComTreeConnectAndxRequest := { password := "", path := "p", service := "?????" }

/-- the echo response the fourth step produces for echoReqMsgEx and
echoPayloadEx. -/
def echoRespEx : SMBMessage :=
  ComEchoResponse.build
    { pid := 70000, tid := 11, uid := 12, mid := 13,
      sequence_number := 0, data := [112, 105, 110, 103] }

/-- the session-setup response the second step produces for sessionReqMsgEx
and ssReqEx. -/
def sessionRespEx : SMBMessage :=
  ComSessionSetupAndxResponse.build
    { pid := 21, tid := 22, uid := 23, mid := 24, action := 1, domain := "D" }

/-- the tree-connect response the third step produces for treeReqMsgEx and
tcReqEx. -/
def treeRespEx : SMBMessage :=
  ComTreeConnectAndxResponse.build
    { pid := 31, tid := 32, uid := 33, mid := 34,
      optional_support := SMB_TREE_CONNECTX_SUPPORT_SEARCH, service := "A:",
      native_file_system := "FAT" }

/-- the negotiate response the first step produces for clock inputs 0 and 0
when the offered list holds the supported dialect at index 1. -/
def negotiateRespEx : SMBMessage :=
  ComNegotiateResponse.build
    { dialect_index := 1, security_mode := 0, max_mpx_count := 65535,
      max_number_vcs := 65535, max_buffer_size := 65535, max_raw_size := 65535,
      session_key := 0, capabilities := server_capabilities,
      system_time := 11644473600 * 10000000, server_time_zone := 0,
      challenge_length := 0 }

/-- the decoded message of the c5TreeBytes frame. -/
def c3ReqMsg : SMBMessage :=
  { command := SMB_COM_TREE_CONNECT_ANDX, status := 0, flags := 0, flags2 := 0,
    pid := 2, security := 0, tid := 1, uid := 3, mid := 4,
    parameters_data := [0xFF, 0, 0, 0, 0, 0, 0, 0],
    data := [65, 0, 0, 0, 65, 58, 0], raw_data := c5TreeBytes }

/-- the decoded payload of the c5TreeBytes frame. -/
def c3Payload : SMBPayload :=
  SMBPayload.treeConnectReq { password := "", path := "A", service := "A:" }

theorem bytesIndex_some_bounds (hay pat : Bytes) (s o : Nat)
    (h : bytesIndex hay pat s = Option.some o) : s ≤ o ∧ o ≤ hay.length := by
  unfold bytesIndex at h
  have hmem := List.mem_of_find?_eq_some h
  have hp := List.find?_some h
  simp only [List.mem_range] at hmem
  simp only [Bool.and_eq_true, decide_eq_true_eq] at hp
  omega

theorem bytesIndex_none_of_lt (hay pat : Bytes) (s : Nat) (h : hay.length < s) :
    bytesIndex hay pat s = Option.none := by
  unfold bytesIndex
  rw [List.find?_eq_none]
  intro i hi
  simp only [List.mem_range] at hi
  simp only [Bool.and_eq_true, decide_eq_true_eq, not_and]
  omega

theorem alignedScan_even (hay pat : Bytes) (base : Nat) :
    ∀ fuel s o, alignedScan hay pat base fuel s = Option.some o → (base + o) % 2 = 0 := by
  intro fuel
  induction fuel with
  | zero => intro s o h; simp [alignedScan] at h
  | succ n ih =>
    intro s o h
    unfold alignedScan at h
    cases hbi : bytesIndex hay pat s with
    | none => rw [hbi] at h; simp at h
    | some o2 =>
      rw [hbi] at h
      dsimp only at h
      by_cases hodd : (base + o2) % 2 = 1
      · rw [if_pos hodd] at h; exact ih (o2 + 1) o h
      · rw [if_neg hodd] at h
        cases h
        omega

theorem alignedScan_fuel_eq (hay pat : Bytes) (base : Nat) :
    ∀ f1 f2 s, hay.length + 2 ≤ f1 + s → hay.length + 2 ≤ f2 + s →
      alignedScan hay pat base f1 s = alignedScan hay pat base f2 s := by
  intro f1
  induction f1 with
  | zero =>
    intro f2 s h1 h2
    have hnone : bytesIndex hay pat s = Option.none := bytesIndex_none_of_lt hay pat s (by omega)
    cases f2 with
    | zero => rfl
    | succ n => simp [alignedScan, hnone]
  | succ n ih =>
    intro f2 s h1 h2
    cases f2 with
    | zero =>
      have hnone : bytesIndex hay pat s = Option.none := bytesIndex_none_of_lt hay pat s (by omega)
      simp [alignedScan, hnone]
    | succ k =>
      unfold alignedScan
      cases hbi : bytesIndex hay pat s with
      | none => rfl
      | some o =>
        have hb := bytesIndex_some_bounds hay pat s o hbi
        dsimp only
        by_cases hodd : (base + o) % 2 = 1
        · rw [if_pos hodd, if_pos hodd]
          exact ih k (o + 1) (by omega) (by omega)
        · rw [if_neg hodd, if_neg hodd]

theorem alignedIndexFrom_even (hay pat : Bytes) (base s o : Nat)
    (h : alignedIndexFrom hay pat base s = Option.some o) : (base + o) % 2 = 0 :=
  alignedScan_even hay pat base (hay.length + 2) s o h

theorem alignedIndexFrom_skip (hay pat : Bytes) (base s o : Nat)
    (h : bytesIndex hay pat s = Option.some o) (hodd : (base + o) % 2 = 1) :
    alignedIndexFrom hay pat base s = alignedIndexFrom hay pat base (o + 1) := by
  unfold alignedIndexFrom
  have step : alignedScan hay pat base (hay.length + 1 + 1) s =
      alignedScan hay pat base (hay.length + 1) (o + 1) := by
    conv_lhs => rw [alignedScan]
    rw [h]
    dsimp only
    rw [if_pos hodd]
  have heq : hay.length + 2 = hay.length + 1 + 1 := by omega
  rw [heq, step]
  exact alignedScan_fuel_eq hay pat base (hay.length + 1) (hay.length + 2) (o + 1)
    (by omega) (by omega)

theorem sockRecv_flatten (chunks : List Bytes) (k : Nat) :
    (sockRecv chunks k).1 ++ (sockRecv chunks k).2.flatten = chunks.flatten := by
  cases chunks with
  | nil => simp [sockRecv]
  | cons c cs =>
    simp only [sockRecv]
    by_cases hd : c.drop k = []
    · rw [if_pos hd]
      rw [List.flatten_cons]
      have hc := List.take_append_drop k c
      rw [hd, List.append_nil] at hc
      rw [hc]
    · rw [if_neg hd]
      rw [List.flatten_cons, List.flatten_cons, ← List.append_assoc,
          List.take_append_drop]

theorem sockRecv_len_le (chunks : List Bytes) (k : Nat) :
    (sockRecv chunks k).1.length ≤ k := by
  cases chunks with
  | nil => simp [sockRecv]
  | cons c cs => simp [sockRecv]

theorem recvAllFuel_ok (fuel : Nat) :
    ∀ chunks len r rest, len ≤ fuel →
      recvAllFuel fuel chunks len = Except.ok (r, rest) →
      r.length = len ∧ r ++ rest.flatten = chunks.flatten := by
  induction fuel with
  | zero =>
    intro chunks len r rest hle h
    have hlen : len = 0 := by omega
    subst hlen
    simp only [recvAllFuel, Except.ok.injEq, Prod.mk.injEq] at h
    obtain ⟨h1, h2⟩ := h
    subst h1; subst h2; simp
  | succ n ih =>
    intro chunks len r rest hle h
    cases len with
    | zero =>
      simp only [recvAllFuel, Except.ok.injEq, Prod.mk.injEq] at h
      obtain ⟨h1, h2⟩ := h
      subst h1; subst h2; simp
    | succ l =>
      unfold recvAllFuel at h
      by_cases hb : (sockRecv chunks (l + 1)).1 = []
      · rw [if_pos hb] at h; simp at h
      · rw [if_neg hb] at h
        cases hrec : recvAllFuel n (sockRecv chunks (l + 1)).2
            (l + 1 - (sockRecv chunks (l + 1)).1.length) with
        | error e => rw [hrec] at h; simp at h
        | ok pr =>
          rw [hrec] at h
          obtain ⟨r0, rest0⟩ := pr
          dsimp only at h
          simp only [Except.ok.injEq, Prod.mk.injEq] at h
          obtain ⟨h1, h2⟩ := h
          have hlen1 : 0 < (sockRecv chunks (l + 1)).1.length :=
            List.length_pos.mpr hb
          have hlen2 := sockRecv_len_le chunks (l + 1)
          have hrec2 := ih (sockRecv chunks (l + 1)).2
            (l + 1 - (sockRecv chunks (l + 1)).1.length) r0 rest0 (by omega)
            (by rw [hrec])
          constructor
          · rw [← h1, List.length_append, hrec2.1]; omega
          · rw [← h1, ← h2, List.append_assoc, hrec2.2]
            exact sockRecv_flatten chunks (l + 1)

theorem readMessage_ok (buf : Bytes) (m : SMBMessage) (p : SMBPayload)
    (h : readMessage buf = Except.ok (m, p)) :
    decodeMessage buf = Except.ok m ∧ decodePayload m = Except.ok p := by
  unfold readMessage at h
  cases hd : decodeMessage buf with
  | error e => rw [hd] at h; simp at h
  | ok m2 =>
    rw [hd] at h
    dsimp only at h
    cases hp : decodePayload m2 with
    | error e =>
      rw [hp] at h
      simp at h
    | ok p2 =>
      rw [hp] at h
      dsimp only at h
      simp only [Except.ok.injEq, Prod.mk.injEq] at h
      obtain ⟨h1, h2⟩ := h
      subst h1; subst h2
      exact ⟨rfl, hp⟩

theorem decodePayload_echo_cmd (m : SMBMessage) (e : ComEchoRequest)
    (h : decodePayload m = Except.ok (SMBPayload.echoReq e)) :
    m.command = SMB_COM_ECHO := by
  unfold decodePayload at h
  by_cases h1 : m.flags &&& SMB_FLAGS_REPLY ≠ 0
  · rw [if_pos h1] at h; simp at h
  · rw [if_neg h1] at h
    by_cases h2 : m.command = SMB_COM_TREE_CONNECT_ANDX
    · rw [if_pos h2] at h
      cases hd : ComTreeConnectAndxRequest.decode m <;> rw [hd] at h <;> simp [Except.map] at h
    · rw [if_neg h2] at h
      by_cases h3 : m.command = SMB_COM_ECHO
      · exact h3
      · rw [if_neg h3] at h
        by_cases h4 : m.command = SMB_COM_SESSION_SETUP_ANDX
        · rw [if_pos h4] at h
          cases hd : ComSessionSetupAndxRequest.decode m <;> rw [hd] at h <;>
            simp [Except.map] at h
        · rw [if_neg h4] at h
          by_cases h5 : m.command = SMB_COM_NEGOTIATE
          · rw [if_pos h5] at h
            cases hd : ComNegotiateRequest.decode m <;> rw [hd] at h <;>
              simp [Except.map] at h
          · rw [if_neg h5] at h; simp at h

theorem handleEchoStep_ok (req : SMBMessage) (p : SMBPayload) (resp : SMBMessage)
    (h : handleEchoStep req p = Except.ok resp) :
    ∃ e, p = SMBPayload.echoReq e ∧ e.echo_count ≤ 1 ∧
      resp = ComEchoResponse.build
        { pid := req.pid, tid := req.tid, uid := req.uid,
          mid := req.mid, sequence_number := 0, data := e.echo_data } := by
  cases p with
  | echoReq e =>
    simp only [handleEchoStep] at h
    by_cases hc : e.echo_count > 1
    · rw [if_pos hc] at h; simp at h
    · rw [if_neg hc] at h
      simp only [Except.ok.injEq] at h
      exact ⟨e, rfl, by omega, h.symm⟩
  | negotiateReq d => simp [handleEchoStep] at h
  | sessionSetupReq r => simp [handleEchoStep] at h
  | treeConnectReq r => simp [handleEchoStep] at h
  | nullPayload => simp [handleEchoStep] at h

theorem handleSessionSetupStep_ok (req : SMBMessage) (p : SMBPayload) (resp : SMBMessage)
    (h : handleSessionSetupStep req p = Except.ok resp) :
    req.command = SMB_COM_SESSION_SETUP_ANDX ∧
    ∃ ss, p = SMBPayload.sessionSetupReq ss ∧
      ss.capabilities &&& server_capabilities = ss.capabilities ∧
      resp = ComSessionSetupAndxResponse.build
        { pid := req.pid, tid := req.tid,
          uid := req.uid, mid := req.mid, action := 1, domain := ss.domain } := by
  unfold handleSessionSetupStep at h
  by_cases hc : req.command ≠ SMB_COM_SESSION_SETUP_ANDX
  · rw [if_pos hc] at h; simp at h
  · rw [if_neg hc] at h
    push_neg at hc
    refine ⟨hc, ?_⟩
    cases p with
    | sessionSetupReq ss =>
      dsimp only at h
      by_cases hcap : ss.capabilities - (ss.capabilities &&& server_capabilities) ≠ 0
      · rw [if_pos hcap] at h; simp at h
      · rw [if_neg hcap] at h
        simp only [Except.ok.injEq] at h
        push_neg at hcap
        have hle : ss.capabilities &&& server_capabilities ≤ ss.capabilities :=
          Nat.and_le_left
        exact ⟨ss, rfl, by omega, h.symm⟩
    | negotiateReq d => dsimp only at h; simp at h
    | treeConnectReq r => dsimp only at h; simp at h
    | echoReq r => dsimp only at h; simp at h
    | nullPayload => dsimp only at h; simp at h

theorem handleTreeConnectStep_ok (req : SMBMessage) (p : SMBPayload) (resp : SMBMessage)
    (h : handleTreeConnectStep req p = Except.ok resp) :
    req.command = SMB_COM_TREE_CONNECT_ANDX ∧
    ∃ tc, p = SMBPayload.treeConnectReq tc ∧
      (tc.service = "?????" ∨ tc.service = "A:") ∧
      resp = ComTreeConnectAndxResponse.build
        { pid := req.pid, tid := req.tid,
          uid := req.uid, mid := req.mid,
          optional_support := SMB_TREE_CONNECTX_SUPPORT_SEARCH,
          service := "A:", native_file_system := "FAT" } := by
  unfold handleTreeConnectStep at h
  by_cases hc : req.command ≠ SMB_COM_TREE_CONNECT_ANDX
  · rw [if_pos hc] at h; simp at h
  · rw [if_neg hc] at h
    push_neg at hc
    refine ⟨hc, ?_⟩
    cases p with
    | treeConnectReq tc =>
      dsimp only at h
      by_cases hs : tc.service ≠ "?????" ∧ tc.service ≠ "A:"
      · rw [if_pos hs] at h; simp at h
      · rw [if_neg hs] at h
        simp only [Except.ok.injEq] at h
        push_neg at hs
        refine ⟨tc, rfl, ?_, h.symm⟩
        by_cases h1 : tc.service = "?????"
        · exact Or.inl h1
        · exact Or.inr (hs h1)
    | negotiateReq d => dsimp only at h; simp at h
    | sessionSetupReq r => dsimp only at h; simp at h
    | echoReq r => dsimp only at h; simp at h
    | nullPayload => dsimp only at h; simp at h

theorem handleNegotiateStep_ok (ts : Nat) (z : Int) (req : SMBMessage) (p : SMBPayload)
    (resp : SMBMessage) (h : handleNegotiateStep ts z req p = Except.ok resp) :
    req.command = SMB_COM_NEGOTIATE ∧
    ∃ dialects i, p = SMBPayload.negotiateReq dialects ∧
      dialects.indexOf? "NT LM 0.12" = Option.some i ∧
      resp = ComNegotiateResponse.build
        { dialect_index := i, security_mode := 0, max_mpx_count := 65535,
          max_number_vcs := 65535, max_buffer_size := 65535, max_raw_size := 65535,
          session_key := 0, capabilities := server_capabilities,
          system_time := (ts + 11644473600) * 10000000,
          server_time_zone := z, challenge_length := 0 } := by
  unfold handleNegotiateStep at h
  by_cases hc : req.command ≠ SMB_COM_NEGOTIATE
  · rw [if_pos hc] at h; simp at h
  · rw [if_neg hc] at h
    push_neg at hc
    refine ⟨hc, ?_⟩
    cases p with
    | negotiateReq dialects =>
      dsimp only at h
      cases hi : dialects.indexOf? "NT LM 0.12" with
      | none => rw [hi] at h; simp at h
      | some i =>
        rw [hi] at h
        dsimp only at h
        simp only [Except.ok.injEq] at h
        exact ⟨dialects, i, rfl, hi, h.symm⟩
    | sessionSetupReq r => dsimp only at h; simp at h
    | treeConnectReq r => dsimp only at h; simp at h
    | echoReq r => dsimp only at h; simp at h
    | nullPayload => dsimp only at h; simp at h

theorem echo_build_fields (r : ComEchoResponse) :
    (ComEchoResponse.build r).pid = r.pid ∧ (ComEchoResponse.build r).tid = r.tid ∧
    (ComEchoResponse.build r).uid = r.uid ∧ (ComEchoResponse.build r).mid = r.mid ∧
    (ComEchoResponse.build r).flags = SMB_FLAGS_REPLY ∧
    (ComEchoResponse.build r).flags2 = 0 ∧
    (ComEchoResponse.build r).parameters_data = le16 r.sequence_number ∧
    (ComEchoResponse.build r).data = r.data :=
  ⟨rfl, rfl, rfl, rfl, rfl, rfl, rfl, rfl⟩

theorem session_build_fields (r : ComSessionSetupAndxResponse) :
    (ComSessionSetupAndxResponse.build r).pid = r.pid ∧
    (ComSessionSetupAndxResponse.build r).tid = r.tid ∧
    (ComSessionSetupAndxResponse.build r).uid = r.uid ∧
    (ComSessionSetupAndxResponse.build r).mid = r.mid ∧
    (ComSessionSetupAndxResponse.build r).flags = SMB_FLAGS_REPLY ∧
    (ComSessionSetupAndxResponse.build r).flags2 = 0 ∧
    (ComSessionSetupAndxResponse.build r).parameters_data =
      DEFAULT_ANDX_PARAM_HEADER ++ le16 r.action ++ le16 0 ∧
    (ComSessionSetupAndxResponse.build r).data = sessionSetupRespDataOf r.domain :=
  ⟨rfl, rfl, rfl, rfl, rfl, rfl, rfl, rfl⟩

theorem tree_build_fields (r : ComTreeConnectAndxResponse) :
    (ComTreeConnectAndxResponse.build r).pid = r.pid ∧
    (ComTreeConnectAndxResponse.build r).tid = r.tid ∧
    (ComTreeConnectAndxResponse.build r).uid = r.uid ∧
    (ComTreeConnectAndxResponse.build r).mid = r.mid ∧
    (ComTreeConnectAndxResponse.build r).flags = SMB_FLAGS_REPLY ∧
    (ComTreeConnectAndxResponse.build r).flags2 = 0 ∧
    (ComTreeConnectAndxResponse.build r).parameters_data = [] ∧
    (ComTreeConnectAndxResponse.build r).data = [] :=
  ⟨rfl, rfl, rfl, rfl, rfl, rfl, rfl, rfl⟩

theorem negotiate_build_fields (r : ComNegotiateResponse) :
    (ComNegotiateResponse.build r).pid = 0 ∧
    (ComNegotiateResponse.build r).tid = 0 ∧
    (ComNegotiateResponse.build r).uid = 0 ∧
    (ComNegotiateResponse.build r).mid = 0 ∧
    (ComNegotiateResponse.build r).flags = SMB_FLAGS_REPLY ∧
    (ComNegotiateResponse.build r).flags2 = 0 ∧
    (ComNegotiateResponse.build r).parameters_data = negotiateRespParams r ∧
    (ComNegotiateResponse.build r).data = [] :=
  ⟨rfl, rfl, rfl, rfl, rfl, rfl, rfl, rfl⟩

theorem rd16le_le16_append (x : Nat) (rest : Bytes) :
    rd16le (le16 x ++ rest) 0 = x % 65536 := by
  simp only [le16, List.cons_append, List.nil_append, rd16le,
    List.getD_cons_zero, List.getD_cons_succ]
  omega

theorem be32rd_be32_append (x : Nat) (rest : Bytes) :
    be32rd (be32 x ++ rest) 0 = x % 4294967296 := by
  simp only [be32, List.cons_append, List.nil_append, be32rd,
    List.getD_cons_zero, List.getD_cons_succ]
  omega

/-- C1: the claim as stated fails for the NEGOTIATE exchange.  The concrete
NEGOTIATE request frame c1NegotiateReqBytes carries pid 3, tid 5, uid 9 and
mid 7; the handshake produces a response for it, and that response carries
pid, tid, uid and mid all 0 — none equal to the request field. -/
theorem C1_counterexample :
    ((readMessage c1NegotiateReqBytes).map
        (fun mp => (mp.1.pid, mp.1.tid, mp.1.uid, mp.1.mid)) = Except.ok (3, 5, 9, 7))
    ∧ (((readMessage c1NegotiateReqBytes).bind
          (fun mp => handleNegotiateStep 0 0 mp.1 mp.2)).map
            (fun r => (r.pid, r.tid, r.uid, r.mid)) = Except.ok (0, 0, 0, 0)) := by
  exact ⟨by decide, by decide⟩

/-- C1 amended: the correlation invariant holds for the SESSION_SETUP_ANDX,
TREE_CONNECT_ANDX and ECHO responses, whose construction copies pid, tid, uid
and mid from the request message; the NEGOTIATE response is built without
those keyword arguments, so its fields are the defaults 0 and equal the
request ids only when those are 0. -/
theorem C1_correlation_amended (ts : Nat) (z : Int) (req : SMBMessage) (p : SMBPayload) :
    (∀ resp, handleSessionSetupStep req p = Except.ok resp →
        resp.pid = req.pid ∧ resp.tid = req.tid ∧ resp.uid = req.uid ∧ resp.mid = req.mid)
  ∧ (∀ resp, handleTreeConnectStep req p = Except.ok resp →
        resp.pid = req.pid ∧ resp.tid = req.tid ∧ resp.uid = req.uid ∧ resp.mid = req.mid)
  ∧ (∀ resp, handleEchoStep req p = Except.ok resp →
        resp.pid = req.pid ∧ resp.tid = req.tid ∧ resp.uid = req.uid ∧ resp.mid = req.mid)
  ∧ (∀ resp, handleNegotiateStep ts z req p = Except.ok resp →
        resp.pid = 0 ∧ resp.tid = 0 ∧ resp.uid = 0 ∧ resp.mid = 0) := by
  refine ⟨?_, ?_, ?_, ?_⟩
  · intro resp h
    obtain ⟨_, ss, _, _, hresp⟩ := handleSessionSetupStep_ok req p resp h
    subst hresp
    exact ⟨rfl, rfl, rfl, rfl⟩
  · intro resp h
    obtain ⟨_, tc, _, _, hresp⟩ := handleTreeConnectStep_ok req p resp h
    subst hresp
    exact ⟨rfl, rfl, rfl, rfl⟩
  · intro resp h
    obtain ⟨e, _, _, hresp⟩ := handleEchoStep_ok req p resp h
    subst hresp
    exact ⟨rfl, rfl, rfl, rfl⟩
  · intro resp h
    obtain ⟨_, dialects, i, _, _, hresp⟩ := handleNegotiateStep_ok ts z req p resp h
    subst hresp
    exact ⟨rfl, rfl, rfl, rfl⟩

theorem C1_correlation_amended_witness :
    (sessionRespEx.pid = sessionReqMsgEx.pid ∧ sessionRespEx.tid = sessionReqMsgEx.tid ∧
      sessionRespEx.uid = sessionReqMsgEx.uid ∧ sessionRespEx.mid = sessionReqMsgEx.mid) ∧
    (treeRespEx.pid = treeReqMsgEx.pid ∧ treeRespEx.tid = treeReqMsgEx.tid ∧
      treeRespEx.uid = treeReqMsgEx.uid ∧ treeRespEx.mid = treeReqMsgEx.mid) ∧
    (echoRespEx.pid = echoReqMsgEx.pid ∧ echoRespEx.tid = echoReqMsgEx.tid ∧
      echoRespEx.uid = echoReqMsgEx.uid ∧ echoRespEx.mid = echoReqMsgEx.mid) ∧
    (negotiateRespEx.pid = 0 ∧ negotiateRespEx.tid = 0 ∧ negotiateRespEx.uid = 0 ∧
      negotiateRespEx.mid = 0) := by
  refine ⟨?_, ?_, ?_, ?_⟩
  · exact (C1_correlation_amended 0 0 sessionReqMsgEx
      (SMBPayload.sessionSetupReq ssReqEx)).1 sessionRespEx (by decide)
  · exact (C1_correlation_amended 0 0 treeReqMsgEx
      (SMBPayload.treeConnectReq tcReqEx)).2.1 treeRespEx (by decide)
  · exact (C1_correlation_amended 0 0 echoReqMsgEx echoPayloadEx).2.2.1 echoRespEx (by decide)
  · exact (C1_correlation_amended 0 0 negReqMsgEx
      (SMBPayload.negotiateReq ["LANMAN1.0", "NT LM 0.12"])).2.2.2 negotiateRespEx (by decide)

/-- C2: the tree-connect response prepare stores the packed parameters and the
disk-share marker on the payload object instead of the message, so the message
the server encodes and sends for a complete TREE_CONNECT_ANDX exchange has an
empty parameters block and an empty data block (35 encoded bytes: header plus
the two zero block counts); the bytes the source meant to send are exactly the
terminal extension header with the optional-support bitmask, and the 3-byte
disk-share marker. -/
theorem C2_tree_connect_response_empty :
    (((readMessage c5TreeBytes).bind (fun mp => handleTreeConnectStep mp.1 mp.2)).map
        (fun r => (r.parameters_data, r.data)) = Except.ok (([] : Bytes), ([] : Bytes)))
  ∧ (((readMessage c5TreeBytes).bind (fun mp => handleTreeConnectStep mp.1 mp.2)).map
        (fun r => (encodeMessage r).length) = Except.ok 35)
  ∧ treeConnectPreparedParams
      { pid := 0, tid := 0, uid := 0, mid := 0,
        optional_support := SMB_TREE_CONNECTX_SUPPORT_SEARCH, service := "A:",
        native_file_system := "FAT" } = [0xFF, 0, 0, 0, 0x10, 0]
  ∧ treeConnectPreparedData = [0x41, 0x3A, 0] := by
  exact ⟨by decide, by decide, by decide, by decide⟩

/-- C3: a message read at the echo step whose command is not ECHO never yields
an echo response: the step reads echo_count off the payload, no payload other
than the echo request carries that attribute, and the payload decode attaches
the echo request payload only to messages whose command byte is ECHO. -/
theorem C3_non_echo_rejected (buf : Bytes) (req : SMBMessage) (p : SMBPayload)
    (h1 : readMessage buf = Except.ok (req, p)) (h2 : req.command ≠ SMB_COM_ECHO) :
    ∀ resp, handleEchoStep req p ≠ Except.ok resp := by
  intro resp hok
  obtain ⟨e, hp, _, _⟩ := handleEchoStep_ok req p resp hok
  subst hp
  exact h2 (decodePayload_echo_cmd req e (readMessage_ok buf req (SMBPayload.echoReq e) h1).2)

theorem C3_non_echo_rejected_witness :
    handleEchoStep c3ReqMsg c3Payload ≠ Except.ok resetMessage :=
  C3_non_echo_rejected c5TreeBytes c3ReqMsg c3Payload (by decide) (by decide) resetMessage

/-- C4: decoding a NEGOTIATE data block offering LANMAN1.0 then NT LM 0.12
yields those two dialect names; the response then encodes dialect index 1 (the
index of the string exactly equal to the supported dialect, read back from the
first two parameter bytes), and an offer of LANMAN1.0 alone makes the step
fail with the distinct lookup error, never a defaulted index. -/
theorem C4_dialect_selection (ts : Nat) (z : Int) (req req2 reqd : SMBMessage)
    (h1 : req.command = SMB_COM_NEGOTIATE) (h2 : req2.command = SMB_COM_NEGOTIATE)
    (h3 : reqd.data = negotiateTwoDialectBytes) :
    ComNegotiateRequest.decode reqd = Except.ok ["LANMAN1.0", "NT LM 0.12"]
  ∧ ((handleNegotiateStep ts z req
        (SMBPayload.negotiateReq ["LANMAN1.0", "NT LM 0.12"])).map
          (fun r => rd16le r.parameters_data 0) = Except.ok 1)
  ∧ handleNegotiateStep ts z req2 (SMBPayload.negotiateReq ["LANMAN1.0"])
      = Except.error "ValueError: NT LM 0.12 is not in list" := by
  refine ⟨?_, ?_, ?_⟩
  · show negotiateDecodeData reqd.data = _
    rw [h3]
    decide
  · unfold handleNegotiateStep
    rw [if_neg (show ¬ req.command ≠ SMB_COM_NEGOTIATE from by simp [h1])]
    dsimp only
    rw [show (["LANMAN1.0", "NT LM 0.12"] : List String).indexOf? "NT LM 0.12"
        = Option.some 1 from by decide]
    dsimp only
    simp only [Except.map]
    rw [show (ComNegotiateResponse.build
      { dialect_index := 1, security_mode := 0, max_mpx_count := 65535,
        max_number_vcs := 65535, max_buffer_size := 65535, max_raw_size := 65535,
        session_key := 0, capabilities := server_capabilities,
        system_time := (ts + 11644473600) * 10000000,
        server_time_zone := z, challenge_length := 0 }).parameters_data
      = negotiateRespParams
        { dialect_index := 1, security_mode := 0, max_mpx_count := 65535,
          max_number_vcs := 65535, max_buffer_size := 65535, max_raw_size := 65535,
          session_key := 0, capabilities := server_capabilities,
          system_time := (ts + 11644473600) * 10000000,
          server_time_zone := z, challenge_length := 0 } from rfl]
    unfold negotiateRespParams
    simp only [List.append_assoc]
    rw [rd16le_le16_append]
  · unfold handleNegotiateStep
    rw [if_neg (show ¬ req2.command ≠ SMB_COM_NEGOTIATE from by simp [h2])]
    dsimp only
    rw [show (["LANMAN1.0"] : List String).indexOf? "NT LM 0.12" = Option.none from by decide]

theorem C4_dialect_selection_witness :
    ComNegotiateRequest.decode { resetMessage with data := negotiateTwoDialectBytes }
        = Except.ok ["LANMAN1.0", "NT LM 0.12"]
    ∧ handleNegotiateStep 0 0 negReqMsgEx (SMBPayload.negotiateReq ["LANMAN1.0"])
        = Except.error "ValueError: NT LM 0.12 is not in list" := by
  have h := C4_dialect_selection 0 0 negReqMsgEx negReqMsgEx
    { resetMessage with data := negotiateTwoDialectBytes } (by decide) (by decide) rfl
  exact ⟨h.1, h.2.2⟩

/-- C5: the claim as stated fails for the TREE_CONNECT_ANDX path field.  In the
concrete frame c5TreeBytes the data block is bytes 65 0 0 0 65 58 0; the
first double-zero occurrence sits at data offset 1, which is whole-message
offset 44 (even), yet the scan skips it; the accepted terminator sits at data
offset 2, which is whole-message offset 45 (odd: 32 header bytes + 1
word-count byte + 8 parameter bytes + 2 data-count bytes + 2) — the source
parity check adds only the header size and the parameters length, the opposite
parity of the offset relative to the start of the whole message.  A scan using
whole-message parity would accept offset 1 instead, so the decoded path would
differ. -/
theorem C5_counterexample :
    ((readMessage c5TreeBytes).map (fun mp => treePathOf mp.2)
        = Except.ok (Option.some "A"))
  ∧ alignedIndexFrom c5TreeData [0, 0] (HEADER_STRUCT_SIZE + 8) 0 = Option.some 2
  ∧ bytesIndex c5TreeData [0, 0] 0 = Option.some 1
  ∧ (HEADER_STRUCT_SIZE + 1 + 8 + 2 + 2) % 2 = 1
  ∧ (HEADER_STRUCT_SIZE + 1 + 8 + 2 + 1) % 2 = 0
  ∧ alignedIndexFrom c5TreeData [0, 0] (HEADER_STRUCT_SIZE + 1 + 8 + 2) 0
      = Option.some 1 := by
  exact ⟨by decide, by decide, by decide, by decide, by decide, by decide⟩

/-- C5 amended: for the SESSION_SETUP_ANDX string fields the scan skips a
terminator found at an odd offset into the raw message, resuming one byte
later, and only ever accepts terminators at even raw offsets — the concrete
frame c5SessionBytes has a false-positive double zero at raw offset 63 that is
skipped, the terminator accepted at 64, and the username decoded up to it.
The tree-connect path scan instead tests the parity of the data-block offset
plus header size plus parameters length, so its accepted terminator satisfies
that parity, which is the opposite of the whole-message-offset parity. -/
theorem C5_alignment_amended (hay term : Bytes) (base s o o2 : Nat) :
    (alignedIndexFrom hay term 0 s = Option.some o → o % 2 = 0)
  ∧ (bytesIndex hay term s = Option.some o2 → (base + o2) % 2 = 1 →
        alignedIndexFrom hay term base s = alignedIndexFrom hay term base (o2 + 1))
  ∧ (alignedIndexFrom hay term base s = Option.some o → (base + o) % 2 = 0)
  ∧ ((readMessage c5SessionBytes).map (fun mp => sessionUsernameOf mp.2)
        = Except.ok (Option.some (String.mk [Char.ofNat 0x4100, Char.ofNat 0x41])))
  ∧ bytesIndex c5SessionBytes [0, 0] 60 = Option.some 63
  ∧ alignedIndexFrom c5SessionBytes [0, 0] 0 60 = Option.some 64 := by
  refine ⟨?_, ?_, ?_, by decide, by decide, by decide⟩
  · intro h
    have he := alignedIndexFrom_even hay term 0 s o h
    omega
  · intro h hodd
    exact alignedIndexFrom_skip hay term base s o2 h hodd
  · intro h
    exact alignedIndexFrom_even hay term base s o h

theorem C5_alignment_amended_witness :
    64 % 2 = 0 ∧
    alignedIndexFrom c5SessionBytes [0, 0] 40 60
      = alignedIndexFrom c5SessionBytes [0, 0] 40 64 := by
  have h := C5_alignment_amended c5SessionBytes [0, 0] 40 60 64 63
  exact ⟨h.1 (by decide), h.2.1 (by decide) (by decide)⟩

/-- C6: an echo request payload with count 1 and any data yields exactly one
response whose parameters block is the 2-byte encoding of sequence number 0
and whose data block is the request data verbatim; decoding a message with
parameter bytes 1 0 and that data produces exactly that payload; and any echo
count above 1 is a fatal error with no response. -/
theorem C6_echo_fidelity (req m4 : SMBMessage) (d : Bytes) (e : ComEchoRequest)
    (hm : m4.parameters_data = [1, 0]) (hd : m4.data = d) :
    ComEchoRequest.decode m4 = Except.ok { echo_count := 1, echo_data := d }
  ∧ ((handleEchoStep req (SMBPayload.echoReq { echo_count := 1, echo_data := d })).map
        (fun r => (r.parameters_data, r.data)) = Except.ok (le16 0, d))
  ∧ (e.echo_count > 1 → ∀ resp, handleEchoStep req (SMBPayload.echoReq e) ≠ Except.ok resp) := by
  refine ⟨?_, ?_, ?_⟩
  · unfold ComEchoRequest.decode
    rw [hm, hd]
    norm_num [rd16le]
  · simp only [handleEchoStep]
    rw [if_neg (by norm_num)]
    simp only [Except.map]
    rfl
  · intro hgt resp hok
    obtain ⟨e2, hp, hle, _⟩ := handleEchoStep_ok req _ resp hok
    injection hp with he2
    subst he2
    omega

theorem C6_echo_fidelity_witness :
    ComEchoRequest.decode
        { resetMessage with parameters_data := [1, 0], data := [112, 105, 110, 103] }
      = Except.ok { echo_count := 1, echo_data := [112, 105, 110, 103] }
    ∧ handleEchoStep echoReqMsgEx (SMBPayload.echoReq { echo_count := 2, echo_data := [] })
        ≠ Except.ok resetMessage := by
  have h := C6_echo_fidelity echoReqMsgEx
    { resetMessage with parameters_data := [1, 0], data := [112, 105, 110, 103] }
    [112, 105, 110, 103] { echo_count := 2, echo_data := [] } rfl rfl
  exact ⟨h.1, h.2.2 (by norm_num) resetMessage⟩

/-- C7: at the session-setup step, a capability bitmask with any bit outside
the advertised server set is rejected before any response exists; a bitmask
inside the set yields the response whose parameters carry the terminal
extension header, action code 1 and a zero blob length, and whose data block
ends with the client domain echoed back. -/
theorem C7_capability_check (req : SMBMessage) (ss : ComSessionSetupAndxRequest)
    (hcmd : req.command = SMB_COM_SESSION_SETUP_ANDX) :
    (ss.capabilities &&& server_capabilities ≠ ss.capabilities →
        ∀ resp, handleSessionSetupStep req (SMBPayload.sessionSetupReq ss) ≠ Except.ok resp)
  ∧ (ss.capabilities &&& server_capabilities = ss.capabilities →
        (handleSessionSetupStep req (SMBPayload.sessionSetupReq ss)).map
            (fun r => (r.parameters_data, r.data))
          = Except.ok (DEFAULT_ANDX_PARAM_HEADER ++ le16 1 ++ le16 0,
                       sessionSetupRespDataOf ss.domain)) := by
  constructor
  · intro hne resp hok
    obtain ⟨_, ss2, heq, hcap, _⟩ := handleSessionSetupStep_ok req _ resp hok
    injection heq with hss
    subst hss
    exact hne hcap
  · intro hsub
    unfold handleSessionSetupStep
    rw [if_neg (show ¬ req.command ≠ SMB_COM_SESSION_SETUP_ANDX from by simp [hcmd])]
    dsimp only
    rw [if_neg (show ¬ ss.capabilities - (ss.capabilities &&& server_capabilities) ≠ 0 from by
      have hle : ss.capabilities &&& server_capabilities ≤ ss.capabilities := Nat.and_le_left
      omega)]
    simp only [Except.map]
    rfl

theorem C7_capability_check_witness :
    ((handleSessionSetupStep sessionReqMsgEx (SMBPayload.sessionSetupReq ssReqEx)).map
        (fun r => (r.parameters_data, r.data))
      = Except.ok (DEFAULT_ANDX_PARAM_HEADER ++ le16 1 ++ le16 0, sessionSetupRespDataOf "D"))
    ∧ handleSessionSetupStep sessionReqMsgEx
        (SMBPayload.sessionSetupReq { ssReqEx with capabilities := 3 })
      ≠ Except.ok resetMessage := by
  constructor
  · exact (C7_capability_check sessionReqMsgEx ssReqEx (by decide)).2 (by decide)
  · exact (C7_capability_check sessionReqMsgEx { ssReqEx with capabilities := 3 }
      (by decide)).1 (by decide) resetMessage

/-- C8: both the session-setup and the tree-connect request decodes read the
4-byte extension header first and succeed only when it is the terminal form —
extension command byte 0xFF and big-endian extension offset 0; for every other
combination of command and offset the decode fails. -/
theorem C8_andx_terminal_required (m : SMBMessage) :
    (¬ (m.parameters_data.getD 0 0 = 0xFF ∧ be16rd m.parameters_data 2 = 0) →
        (∀ r, ComSessionSetupAndxRequest.decode m ≠ Except.ok r)
      ∧ (∀ r, ComTreeConnectAndxRequest.decode m ≠ Except.ok r))
  ∧ (∀ r, ComSessionSetupAndxRequest.decode m = Except.ok r →
        m.parameters_data.getD 0 0 = 0xFF ∧ be16rd m.parameters_data 2 = 0)
  ∧ (∀ r, ComTreeConnectAndxRequest.decode m = Except.ok r →
        m.parameters_data.getD 0 0 = 0xFF ∧ be16rd m.parameters_data 2 = 0) := by
  have hs : ∀ r, ComSessionSetupAndxRequest.decode m = Except.ok r →
      m.parameters_data.getD 0 0 = 0xFF ∧ be16rd m.parameters_data 2 = 0 := by
    intro r h
    unfold ComSessionSetupAndxRequest.decode at h
    by_cases h1 : m.parameters_data.length < DEFAULT_ANDX_PARAM_SIZE
    · rw [if_pos h1] at h; simp at h
    · rw [if_neg h1] at h
      by_cases h2 : m.parameters_data.getD 0 0 = 0xFF ∧ be16rd m.parameters_data 2 = 0
      · exact h2
      · rw [if_neg h2] at h; simp at h
  have ht : ∀ r, ComTreeConnectAndxRequest.decode m = Except.ok r →
      m.parameters_data.getD 0 0 = 0xFF ∧ be16rd m.parameters_data 2 = 0 := by
    intro r h
    unfold ComTreeConnectAndxRequest.decode at h
    by_cases h1 : m.parameters_data.length < DEFAULT_ANDX_PARAM_SIZE
    · rw [if_pos h1] at h; simp at h
    · rw [if_neg h1] at h
      by_cases h2 : m.parameters_data.getD 0 0 = 0xFF ∧ be16rd m.parameters_data 2 = 0
      · exact h2
      · rw [if_neg h2] at h; simp at h
  exact ⟨fun hne => ⟨fun r h => hne (hs r h), fun r h => hne (ht r h)⟩, hs, ht⟩

theorem C8_andx_terminal_required_witness :
    ComSessionSetupAndxRequest.decode { resetMessage with parameters_data := [0, 0, 0, 0] }
        ≠ Except.ok ssReqEx
    ∧ ComTreeConnectAndxRequest.decode { resetMessage with parameters_data := [0, 0, 0, 0] }
        ≠ Except.ok tcReqEx := by
  have h := (C8_andx_terminal_required
    { resetMessage with parameters_data := [0, 0, 0, 0] }).1 (by decide)
  exact ⟨h.1 ssReqEx, h.2 tcReqEx⟩

/-- C9: recv_all returns exactly the requested byte count and fails when the
peer closes the stream short of it; a sent message is the 4-byte big-endian
length of the encoded body, covering only the body, followed by the body; and
a successfully read message body has exactly the length declared by the 4-byte
prefix read first. -/
theorem C9_framing (chunks : List Bytes) (n : Nat) (m : SMBMessage) :
    (∀ r rest, recv_all chunks n = Except.ok (r, rest) → r.length = n)
  ∧ (chunks.flatten.length < n → ∀ r rest, recv_all chunks n ≠ Except.ok (r, rest))
  ∧ sendMessage m = be32 (encodeMessage m).length ++ encodeMessage m
  ∧ ((encodeMessage m).length < 4294967296 →
        be32rd (sendMessage m) 0 = (encodeMessage m).length)
  ∧ (∀ body rest, read_message_raw chunks = Except.ok (body, rest) →
        body.length = be32rd (sockRecv chunks 4).1 0) := by
  refine ⟨?_, ?_, rfl, ?_, ?_⟩
  · intro r rest h
    exact (recvAllFuel_ok n chunks n r rest le_rfl h).1
  · intro hlt r rest h
    have hok := recvAllFuel_ok n chunks n r rest le_rfl h
    have hlen : chunks.flatten.length = n + rest.flatten.length := by
      rw [← hok.2, List.length_append, hok.1]
    omega
  · intro hlt
    unfold sendMessage
    rw [be32rd_be32_append]
    omega
  · intro body rest h
    unfold read_message_raw at h
    by_cases hl : (sockRecv chunks 4).1.length = 4
    · rw [if_pos hl] at h
      exact (recvAllFuel_ok (be32rd (sockRecv chunks 4).1 0) (sockRecv chunks 4).2
        (be32rd (sockRecv chunks 4).1 0) body rest le_rfl h).1
    · rw [if_neg hl] at h
      simp at h

theorem C9_framing_witness :
    ([7, 8] : Bytes).length = 2
    ∧ recv_all [[7]] 2 ≠ Except.ok (([7] : Bytes), ([] : List Bytes)) := by
  constructor
  · exact (C9_framing [[7, 8]] 2 resetMessage).1 [7, 8] [] (by decide)
  · exact (C9_framing [[7]] 2 resetMessage).2.1 (by decide) [7] []

/-- C10: every response any of the four handshake steps constructs — built on
a fresh reset message through init_reply — has the reply flag set in flags and
the extended-security bit clear in flags2, whatever the flags, flags2 or other
fields of the triggering request were. -/
theorem C10_reply_flags (ts : Nat) (z : Int) (req : SMBMessage) (p : SMBPayload)
    (resp : SMBMessage)
    (h : handleNegotiateStep ts z req p = Except.ok resp ∨
         handleSessionSetupStep req p = Except.ok resp ∨
         handleTreeConnectStep req p = Except.ok resp ∨
         handleEchoStep req p = Except.ok resp) :
    resp.flags &&& SMB_FLAGS_REPLY = SMB_FLAGS_REPLY ∧
    resp.flags2 &&& SMB_FLAGS2_EXTENDED_SECURITY = 0 := by
  rcases h with h | h | h | h
  · obtain ⟨_, dialects, i, _, _, hresp⟩ := handleNegotiateStep_ok ts z req p resp h
    subst hresp
    constructor
    · rw [(negotiate_build_fields _).2.2.2.2.1]; decide
    · rw [(negotiate_build_fields _).2.2.2.2.2.1]; decide
  · obtain ⟨_, ss, _, _, hresp⟩ := handleSessionSetupStep_ok req p resp h
    subst hresp
    constructor
    · rw [(session_build_fields _).2.2.2.2.1]; decide
    · rw [(session_build_fields _).2.2.2.2.2.1]; decide
  · obtain ⟨_, tc, _, _, hresp⟩ := handleTreeConnectStep_ok req p resp h
    subst hresp
    constructor
    · rw [(tree_build_fields _).2.2.2.2.1]; decide
    · rw [(tree_build_fields _).2.2.2.2.2.1]; decide
  · obtain ⟨e, _, _, hresp⟩ := handleEchoStep_ok req p resp h
    subst hresp
    constructor
    · rw [(echo_build_fields _).2.2.2.2.1]; decide
    · rw [(echo_build_fields _).2.2.2.2.2.1]; decide

theorem C10_reply_flags_witness :
    echoRespEx.flags &&& SMB_FLAGS_REPLY = SMB_FLAGS_REPLY ∧
    echoRespEx.flags2 &&& SMB_FLAGS2_EXTENDED_SECURITY = 0 :=
  C10_reply_flags 0 0 echoReqMsgEx echoPayloadEx echoRespEx
    (Or.inr (Or.inr (Or.inr (by decide))))
